import Mathlib

/-!
Shallow embedding of the Channel-Monitor relay pipeline
(src/database.py, src/filters.py, src/publisher.py, src/monitor.py).

Python strings are modelled as lists of characters (Python indexes and
measures strings by code points, which matches List Char); machine-level
integer identity values are modelled as Int, message ids as Nat.  SQLite
tables are modelled as in-memory lists of records; the UNIQUE constraint
of published_posts is modelled by an explicit existence check inside
add_published_post, which is exactly the observable behaviour of the
INSERT (the IntegrityError raised on a duplicate key is caught by the
surrounding try/except, which returns False and rolls the transaction
back).  Fallible operations return a Bool paired with the new database
state.  External library behaviour (the regular-expression engine of the
re module and datetime.strftime) is abstracted into explicitly passed
oracle parameters; everything else is translated from the source.
-/

/-- Python strings as sequences of code points. -/
abbrev Str := List Char

/-- Python str.lower, modelled per code point. -/
def lowerStr (s : Str) : Str := s.map Char.toLower

/-- Python substring containment, i.e. the expression (needle in hay):
contiguous-subsequence membership, decided via List.decidableInfix. -/
def isSubstr (needle hay : Str) : Bool := decide (needle <:+: hay)

/-- Python truthiness for an optional string: None and the empty string
are falsy, every other string is truthy.  Returns the string when
truthy, none otherwise. -/
def truthyStr : Option Str → Option Str
  | none => none
  | some s => if s = [] then none else some s

/-- Default value of config.MAX_POST_LENGTH (src/config.py line 22). -/
def MAX_POST_LENGTH : Nat := 4096

/-- Row of the filters table (src/database.py lines 69-79): the columns
used by MessageFilter.check_message plus the is_active flag consulted by
Database.get_filters. -/
inductive FilterKind
  | inc
  | exc
  | regex
deriving Repr, DecidableEq

/-- One filter rule as stored in the filters table; filter_type is
constrained by the table CHECK clause to include, exclude or regex,
modelled by FilterKind (inc stands for include, exc for exclude). -/
structure FilterRule where
  name : Str
  filter_type : FilterKind
  value : Str
  is_case_sensitive : Bool
  is_active : Bool
deriving Repr, DecidableEq

/-- Metadata dict assembled in PostPublisher.publish_message
(src/publisher.py lines 84-90) and stored JSON-encoded in the ledger
row; message_date keeps the underlying timestamp, abstracting the
isoformat rendering. -/
structure PostMetadata where
  source_channel_title : Option Str
  source_channel_username : Option Str
  message_date : Option Int
  has_media : Bool
  media_types : List Str
deriving Repr, DecidableEq

/-- Row of the published_posts table (src/database.py lines 82-94),
minus the autoincrement id and timestamp columns, which no code path
reads. -/
structure PubRecord where
  source_channel_id : Int
  source_message_id : Nat
  target_channel_id : Int
  published_message_id : Nat
  metadata : Option PostMetadata
deriving Repr, DecidableEq

/-- Row of the errors table (src/database.py lines 109-118). -/
structure ErrorRecord where
  error_type : Str
  error_message : Str
  channel_id : Option Int
  message_id : Option Nat
deriving Repr, DecidableEq

/-- Row of the target_channels table (src/database.py lines 56-66). -/
structure TargetChannel where
  channel_id : Int
  username : Option Str
  title : Option Str
  invite_link : Option Str
  is_active : Bool
deriving Repr, DecidableEq

/-- Row of the source_channels table (src/database.py lines 41-53). -/
structure SourceChannel where
  channel_id : Int
  username : Option Str
  title : Option Str
  invite_link : Option Str
  last_scanned_id : Nat
  is_active : Bool
deriving Repr, DecidableEq

/-- The sqlite database of src/database.py, as the lists of rows of the
tables the relay pipeline touches.  The statistics table is keyed here
only by source_channel_id because every write within one run uses the
same date literal. -/
structure DB where
  published_posts : List PubRecord
  statistics : List (Int × Nat)
  errors : List ErrorRecord
  filters : List FilterRule
  target_channels : List TargetChannel
  source_channels : List SourceChannel
deriving Repr, DecidableEq

/-- Database with all tables empty. -/
def DB.empty : DB := ⟨[], [], [], [], [], []⟩

/-- Predicate for the composite UNIQUE key of published_posts. -/
def keyMatches (s : Int) (mid : Nat) (t : Int) (r : PubRecord) : Bool :=
  r.source_channel_id == s && r.source_message_id == mid && r.target_channel_id == t

/-- Database.is_post_published (src/database.py lines 234-244): SELECT
on the composite key, true when a row exists. -/
def is_post_published (db : DB) (source_channel_id : Int) (source_message_id : Nat)
    (target_channel_id : Int) : Bool :=
  db.published_posts.any (keyMatches source_channel_id source_message_id target_channel_id)

/-- Number of ledger rows carrying a given composite key. -/
def countKey (db : DB) (s : Int) (mid : Nat) (t : Int) : Nat :=
  (db.published_posts.filter (keyMatches s mid t)).length

/-- INSERT OR REPLACE into statistics performed inside add_published_post
(src/database.py lines 222-228): the posts_published counter of the
source channel becomes previous value (or 0) plus one. -/
def bumpStatistics (stats : List (Int × Nat)) (s : Int) : List (Int × Nat) :=
  match stats.find? (fun p => p.1 == s) with
  | some p => stats.map (fun q => if q.1 == s then (q.1, p.2 + 1) else q)
  | none => stats ++ [(s, 1)]

/-- Database.add_published_post (src/database.py lines 206-232): INSERT
of the record followed by the statistics bump, inside one transaction;
a duplicate composite key violates the UNIQUE constraint, the raised
error is caught, the transaction is rolled back and False is returned.
Success returns True. -/
def add_published_post (db : DB) (source_channel_id : Int) (source_message_id : Nat)
    (target_channel_id : Int) (published_message_id : Nat)
    (metadata : Option PostMetadata) : Bool × DB :=
  if is_post_published db source_channel_id source_message_id target_channel_id then
    (false, db)
  else
    (true,
      { db with
        published_posts := db.published_posts ++
          [⟨source_channel_id, source_message_id, target_channel_id,
            published_message_id, metadata⟩],
        statistics := bumpStatistics db.statistics source_channel_id })

/-- Database.log_error (src/database.py lines 270-277). -/
def log_error (db : DB) (error_type error_message : Str) (channel_id : Option Int)
    (message_id : Option Nat) : DB :=
  { db with errors := db.errors ++ [⟨error_type, error_message, channel_id, message_id⟩] }

/-- Database.get_filters (src/database.py lines 196-203). -/
def get_filters (db : DB) (active_only : Bool) : List FilterRule :=
  if active_only then db.filters.filter (·.is_active) else db.filters

/-- Database.get_target_channels (src/database.py lines 173-180). -/
def get_target_channels (db : DB) (active_only : Bool) : List TargetChannel :=
  if active_only then db.target_channels.filter (·.is_active) else db.target_channels

/-- Database.update_last_scanned_id (src/database.py lines 149-156). -/
def update_last_scanned_id (db : DB) (channel_id : Int) (last_message_id : Nat) : DB :=
  { db with
    source_channels := db.source_channels.map
      (fun c => if c.channel_id == channel_id then { c with last_scanned_id := last_message_id } else c) }

/-- Unpublished composite keys have no matching ledger row. -/
theorem countKey_eq_zero_of_not_published {db : DB} {s : Int} {mid : Nat} {t : Int}
    (h : is_post_published db s mid t = false) : countKey db s mid t = 0 := by
  unfold is_post_published at h
  unfold countKey
  simp only [List.any_eq_false] at h
  simp only [List.length_eq_zero, List.filter_eq_nil_iff]
  intro r hr
  exact (h r hr)

/-- C1: after add_published_post succeeds for a triple, is_post_published
on the triple returns true, a second add_published_post for the same
triple fails (returns false, the unique-constraint case) leaving the
database unchanged, and the ledger holds exactly one record for the
composite key. -/
theorem C1_ledger_idempotent (db db' : DB) (s : Int) (mid : Nat) (t : Int)
    (pid : Nat) (meta : Option PostMetadata)
    (h : add_published_post db s mid t pid meta = (true, db')) :
    is_post_published db' s mid t = true ∧
    (∀ pid' meta', add_published_post db' s mid t pid' meta' = (false, db')) ∧
    countKey db' s mid t = 1 := by
  unfold add_published_post at h
  by_cases hdup : is_post_published db s mid t
  · simp [hdup] at h
  · simp only [hdup, Bool.false_eq_true, if_false, Prod.mk.injEq, true_and] at h
    have hpub : is_post_published db' s mid t = true := by
      subst h
      unfold is_post_published
      simp [List.any_append, keyMatches]
    refine ⟨hpub, fun pid' meta' => by unfold add_published_post; simp [hpub], ?_⟩
    have hzero := @countKey_eq_zero_of_not_published db s mid t (by simpa using hdup)
    subst h
    unfold countKey at hzero ⊢
    simp only [List.filter_append, List.length_append, hzero]
    simp [keyMatches]

/-- Witness for C1 at a concrete input: inserting the triple (1, 2, 3)
into the empty database. -/
theorem C1_ledger_idempotent_witness :
    is_post_published (add_published_post DB.empty 1 2 3 7 none).2 1 2 3 = true ∧
    (∀ pid' meta',
      add_published_post (add_published_post DB.empty 1 2 3 7 none).2 1 2 3 pid' meta' =
        (false, (add_published_post DB.empty 1 2 3 7 none).2)) ∧
    countKey (add_published_post DB.empty 1 2 3 7 none).2 1 2 3 = 1 :=
  C1_ledger_idempotent DB.empty (add_published_post DB.empty 1 2 3 7 none).2 1 2 3 7 none rfl

/-- Oracle for the Python re module as used by MessageFilter: whether
re.compile accepts a pattern string (compilation failure depends only on
the pattern text, not on the flags), and whether pattern.search finds a
match in a text, given the IGNORECASE flag.  check_message is faithful
to src/filters.py for every instantiation of this oracle. -/
structure RegexEngine where
  validPattern : Str → Bool
  searchFound : Str → Bool → Str → Bool

/-- Loop body of MessageFilter.check_message (src/filters.py lines
40-77).  Each iteration recomputes text_to_check and value from the
original text and the rule (lines 45-49); include and exclude compare
against the possibly lowercased text, while the regex branch compiles
the possibly lowercased value with IGNORECASE when not case sensitive
and searches the original text (line 69); a pattern rejected by
re.compile is skipped via continue (lines 73-75); a failing rule sets
passes_all_filters to False and breaks. -/
def checkRules (eng : RegexEngine) (text : Str) : List FilterRule → Bool
  | [] => true
  | f :: rest =>
    let text_to_check := if f.is_case_sensitive then text else lowerStr text
    let value := if f.is_case_sensitive then f.value else lowerStr f.value
    match f.filter_type with
    | .inc => if isSubstr value text_to_check then checkRules eng text rest else false
    | .exc => if isSubstr value text_to_check then false else checkRules eng text rest
    | .regex =>
      if eng.validPattern value then
        if eng.searchFound value (!f.is_case_sensitive) text then checkRules eng text rest
        else false
      else checkRules eng text rest

/-- MessageFilter.check_message (src/filters.py lines 23-77) with the
filters argument supplied: empty text returns False at once (line 28),
an empty rule list returns True (line 34), otherwise the rule loop
decides. -/
def check_message (eng : RegexEngine) (text : Str) (filters : List FilterRule) : Bool :=
  if text = [] then false
  else if filters = [] then true
  else checkRules eng text filters

/-- Counterexample to C6: with zero active rules and the empty text of a
media-only event, check_message returns false, not true, because the
empty-text guard on line 28 of src/filters.py runs before the allow-all
branch. -/
theorem C6_counterexample_empty_text :
    check_message ⟨fun _ => true, fun _ _ _ => true⟩ [] [] = false := rfl

/-- C6 as amended: with zero active rules check_message returns true for
every event whose text is non-empty, while an event with empty text
(media-only events included) returns false before the rules are ever
consulted, whatever the rule list. -/
theorem C6_allow_all_amended (eng : RegexEngine) (text : Str) (rules : List FilterRule) :
    check_message eng [] rules = false ∧
    (text ≠ [] → check_message eng text [] = true) := by
  constructor
  · simp [check_message]
  · intro h
    simp [check_message, h]

/-- Witness for C6 as amended, at the one-character text "a". -/
theorem C6_allow_all_amended_witness :
    check_message ⟨fun _ => true, fun _ _ _ => true⟩ ['a'] [] = true :=
  (C6_allow_all_amended ⟨fun _ => true, fun _ _ _ => true⟩ ['a'] []).2 (by decide)

/-- Pattern string that a regex rule hands to re.compile: the stored
value, lowercased first when the rule is not case sensitive (src/filters.py
lines 45-47 run before the regex branch). -/
def compiledPattern (f : FilterRule) : Str :=
  if f.is_case_sensitive then f.value else lowerStr f.value

/-- Skipping an invalid-pattern regex rule anywhere in the rule list
leaves the verdict of the rule loop unchanged. -/
theorem checkRules_erase_invalid (eng : RegexEngine) (text : Str) (bad : FilterRule)
    (hkind : bad.filter_type = FilterKind.regex)
    (hbad : eng.validPattern (compiledPattern bad) = false) :
    ∀ pre post : List FilterRule,
      checkRules eng text (pre ++ bad :: post) = checkRules eng text (pre ++ post) := by
  intro pre post
  induction pre with
  | nil =>
    simp only [List.nil_append, checkRules, hkind]
    unfold compiledPattern at hbad
    simp [hbad]
  | cons f rest ih =>
    simp only [List.cons_append, checkRules]
    cases f.filter_type <;> simp only [] <;> split <;> simp [ih]

/-- C7: a regex rule whose value re.compile rejects is a no-op, i.e.
check_message returns the same boolean as for the rule list with that
rule removed; evaluation never raises (check_message is a total
function of its inputs). -/
theorem C7_invalid_regex_noop (eng : RegexEngine) (text : Str) (bad : FilterRule)
    (pre post : List FilterRule)
    (hkind : bad.filter_type = FilterKind.regex)
    (hbad : eng.validPattern (compiledPattern bad) = false) :
    check_message eng text (pre ++ bad :: post) = check_message eng text (pre ++ post) := by
  unfold check_message
  by_cases htext : text = []
  · simp [htext]
  · simp only [htext, if_false]
    by_cases hrest : pre ++ post = []
    · rcases List.append_eq_nil.mp hrest with ⟨h1, h2⟩
      subst h1; subst h2
      simp only [List.nil_append, checkRules, hkind, List.append_nil]
      unfold compiledPattern at hbad
      simp [hbad, checkRules]
    · have hne : pre ++ bad :: post ≠ [] := by
        cases pre <;> simp
      simp only [hne, hrest, if_false]
      exact checkRules_erase_invalid eng text bad hkind hbad pre post

/-- Witness for C7: a concrete engine rejecting the pattern "(" shows
the invalid regex rule [regex "("] appended after an include rule is
skipped. -/
theorem C7_invalid_regex_noop_witness :
    check_message
      ⟨fun p => decide (p ≠ ['(']), fun _ _ _ => false⟩ ['h', 'i']
      ([⟨['n'], FilterKind.inc, ['i'], true, true⟩] ++
        ⟨['b'], FilterKind.regex, ['('], true, true⟩ :: []) =
    check_message
      ⟨fun p => decide (p ≠ ['(']), fun _ _ _ => false⟩ ['h', 'i']
      ([⟨['n'], FilterKind.inc, ['i'], true, true⟩] ++ []) :=
  C7_invalid_regex_noop ⟨fun p => decide (p ≠ ['(']), fun _ _ _ => false⟩ ['h', 'i']
    ⟨['b'], FilterKind.regex, ['('], true, true⟩
    [⟨['n'], FilterKind.inc, ['i'], true, true⟩] [] rfl (by decide)

/-- Single-quote character, used inside the href attributes that
_format_caption builds. -/
def sglQuote : Char := Char.ofNat 39

/-- Character class of the regular expression token w as used by the
hashtag scan (ASCII approximation: letters, digits and underscore; the
verified claims use ASCII inputs only). -/
def isWordChar (c : Char) : Bool := c.isAlphanum || c == '_'

/-- Decimal rendering of a message id, as Python string interpolation
does. -/
def natStr (n : Nat) : Str := (toString n).toList

/-- Telethon message as consumed by the relay pipeline: the fields read
by src/monitor.py and src/publisher.py.  date is a timestamp in whole
seconds (datetime arithmetic is modelled on seconds); photo is the list
of available photo sizes (file ids), empty when the message has no
photo. -/
structure Message where
  chat_is_channel : Bool
  chat_id : Int
  id : Nat
  text : Option Str
  caption : Option Str
  date : Option Int
  media : Bool
  photo : List Str
  video : Option Str
  document_mime : Option (Option Str)
  document_file : Str
  audio : Option Str
  voice : Bool
  sticker : Bool
  poll : Bool
  location : Bool
  contact : Bool
  grouped_id : Option Nat
deriving Repr, DecidableEq

/-- Expression (message.text or message.caption or "") as it appears in
src/monitor.py line 85, src/publisher.py lines 143 and 217: the first
truthy string, else empty. -/
def pyTextOf (m : Message) : Str :=
  match truthyStr m.text with
  | some t => t
  | none =>
    match truthyStr m.caption with
    | some c => c
    | none => []

/-- Media kinds returned by MessageFilter.get_media_type. -/
inductive MediaType
  | photo
  | video
  | image
  | audio
  | document
  | voice
  | sticker
  | poll
  | location
  | contact
deriving Repr, DecidableEq

/-- MessageFilter.get_media_type (src/filters.py lines 93-122): the
elif chain over the media fields, refining a document by its mime type
(substring checks for image, video, audio). -/
def get_media_type (m : Message) : Option MediaType :=
  if m.photo ≠ [] then some .photo
  else if m.video.isSome then some .video
  else
    match m.document_mime with
    | some mime =>
      match truthyStr mime with
      | some mt =>
        if isSubstr "image".toList mt then some .image
        else if isSubstr "video".toList mt then some .video
        else if isSubstr "audio".toList mt then some .audio
        else some .document
      | none => some .document
    | none =>
      if m.audio.isSome then some .audio
      else if m.voice then some .voice
      else if m.sticker then some .sticker
      else if m.poll then some .poll
      else if m.location then some .location
      else if m.contact then some .contact
      else none

/-- MessageFilter.check_media_type (src/filters.py lines 85-91): empty
allowed list lets everything through, otherwise the media type must be
present and allowed. -/
def check_media_type (m : Message) (allowed_types : List MediaType) : Bool :=
  if allowed_types = [] then true
  else
    match get_media_type m with
    | some mt => allowed_types.contains mt
    | none => false

/-- PostPublisher._get_media_types (src/publisher.py lines 221-232):
independent truthiness checks appending the four tags. -/
def _get_media_types (m : Message) : List Str :=
  (if m.photo ≠ [] then ["photo".toList] else []) ++
  (if m.video.isSome then ["video".toList] else []) ++
  (if m.document_mime.isSome then ["document".toList] else []) ++
  (if m.audio.isSome then ["audio".toList] else [])

/-- Keys of the source_channel_info dict that PostPublisher reads via
.get: title, username and invite_link. -/
structure Info where
  title : Option Str
  username : Option Str
  invite_link : Option Str
deriving Repr, DecidableEq

/-- The empty dict passed to _format_caption by _prepare_media
(src/publisher.py line 171). -/
def Info.emptyDict : Info := ⟨none, none, none⟩

/-- View of a source_channels row as the channel-info dict handed to the
publisher (src/monitor.py line 60 passes the row dict through). -/
def SourceChannel.toInfo (c : SourceChannel) : Info :=
  ⟨c.title, c.username, c.invite_link⟩

/-- PostPublisher._get_channel_link (src/publisher.py lines 201-207):
a truthy invite link wins, else a truthy username yields a t.me link. -/
def _get_channel_link (info : Info) : Option Str :=
  match truthyStr info.invite_link with
  | some l => some l
  | none =>
    match truthyStr info.username with
    | some u => some ("https://t.me/".toList ++ u)
    | none => none

/-- PostPublisher._get_original_link (src/publisher.py lines 209-213):
needs a truthy username and a truthy (non-zero) message id. -/
def _get_original_link (m : Message) (info : Info) : Option Str :=
  match truthyStr info.username with
  | some u =>
    if m.id ≠ 0 then some ("https://t.me/".toList ++ u ++ "/".toList ++ natStr m.id)
    else none
  | none => none

/-- Python str.join with the given separator. -/
def pyJoin (sep : Str) : List Str → Str
  | [] => []
  | [p] => p
  | p :: ps => p ++ sep ++ pyJoin sep ps

/-- Separator used by _format_caption (src/publisher.py line 166). -/
def nnSep : Str := "\n\n".toList

/-- Hashtag scan of re.findall over the pattern hash-sign-then-word-run
(src/publisher.py line 218), fuelled by the text length so the
definition is structural; each match is a hash sign followed by a
maximal non-empty run of word characters, and scanning resumes after
the match. -/
def findHashtagsAux : Nat → Str → List Str
  | 0, _ => []
  | _ + 1, [] => []
  | fuel + 1, c :: rest =>
    if c = '#' then
      let run := rest.takeWhile isWordChar
      if run = [] then findHashtagsAux fuel rest
      else ('#' :: run) :: findHashtagsAux fuel (rest.dropWhile isWordChar)
    else findHashtagsAux fuel rest

/-- All hashtag matches of a text, in scan order. -/
def findHashtags (s : Str) : List Str := findHashtagsAux s.length s

/-- PostPublisher._extract_hashtags (src/publisher.py lines 215-219):
the found hashtags are deduplicated through list(set(...)) and capped at
five.  CPython iterates a set in an unspecified order; the model keeps
the first-occurrence order, and no verified claim depends on the order. -/
def _extract_hashtags (m : Message) : List Str :=
  ((findHashtags (pyTextOf m)).eraseDups).take 5

/-- Attribution part of the caption (src/publisher.py lines 133-140):
present when the title is truthy, as an anchor when a channel link
exists. -/
def attrPart (info : Info) : Option Str :=
  match truthyStr info.title with
  | some t =>
    match _get_channel_link info with
    | some l =>
      some ("📢 <b>Из:</b> <a href=".toList ++ [sglQuote] ++ l ++ [sglQuote] ++ ">".toList ++
        t ++ "</a>".toList)
    | none => some ("📢 <b>Из:</b> ".toList ++ t)
  | none => none

/-- Body truncation of _format_caption (src/publisher.py lines 145-148):
a body longer than MAX_POST_LENGTH - 200 is cut to that many characters
and the three-dot marker is appended. -/
def truncateBody (body : Str) : Str :=
  if body.length > MAX_POST_LENGTH - 200 then
    body.take (MAX_POST_LENGTH - 200) ++ "...".toList
  else body

/-- Permalink part of the caption (src/publisher.py lines 152-154). -/
def linkPart (m : Message) (info : Info) : Option Str :=
  match _get_original_link m info with
  | some l =>
    some ("🔗 <a href=".toList ++ [sglQuote] ++ l ++ [sglQuote] ++ ">Оригинал</a>".toList)
  | none => none

/-- Hashtag part of the caption (src/publisher.py lines 157-159). -/
def tagPart (m : Message) : Option Str :=
  match _extract_hashtags m with
  | [] => none
  | tags => some (pyJoin [' '] tags)

/-- Timestamp part of the caption (src/publisher.py lines 162-164); the
strftime oracle renders a timestamp the way strftime with the format
day.month.year hour:minute does. -/
def timePart (strftime : Int → Str) (m : Message) : Option Str :=
  match m.date with
  | some d => some ("🕐 ".toList ++ strftime d)
  | none => none

/-- PostPublisher._format_caption (src/publisher.py lines 128-166): the
five optional parts in source order, empties dropped, joined by blank
lines. -/
def _format_caption (strftime : Int → Str) (m : Message) (info : Info) : Str :=
  pyJoin nnSep (List.filterMap id
    [attrPart info,
     if pyTextOf m = [] then none else some (truncateBody (pyTextOf m)),
     linkPart m info,
     tagPart m,
     timePart strftime m])

/-- InputMedia wrappers constructed by _prepare_media. -/
inductive InputMedia
  | photo (media : Str) (caption : Str)
  | video (media : Str) (caption : Str)
  | document (media : Str) (caption : Str)
deriving Repr, DecidableEq

/-- PostPublisher._prepare_media (src/publisher.py lines 168-199): at
most one media item (photo beats video beats document; the grouped-id
branch is a pass statement), captioned with the empty channel dict;
photo takes the last, highest-quality size. -/
def _prepare_media (strftime : Int → Str) (m : Message) : List InputMedia :=
  let cap := _format_caption strftime m Info.emptyDict
  if m.media then
    match m.photo.getLast? with
    | some fid => [InputMedia.photo fid cap]
    | none =>
      match m.video with
      | some fid => [InputMedia.video fid cap]
      | none =>
        match m.document_mime with
        | some _ => [InputMedia.document m.document_file cap]
        | none => []
  else []

/-- Length contributed by an optional caption part. -/
def optLen (o : Option Str) : Nat :=
  match o with
  | none => 0
  | some s => s.length

/-- Texts without a hash sign yield no hashtag matches, whatever the
fuel. -/
theorem findHashtagsAux_no_hash : ∀ (fuel : Nat) (s : Str),
    (∀ c ∈ s, c ≠ '#') → findHashtagsAux fuel s = [] := by
  intro fuel
  induction fuel with
  | zero => intro s _; rfl
  | succ n ih =>
    intro s hs
    cases s with
    | nil => rfl
    | cons c rest =>
      have hc : c ≠ '#' := hs c (List.mem_cons_self c rest)
      simp only [findHashtagsAux, if_neg hc]
      exact ih rest (fun x hx => hs x (List.mem_cons_of_mem c hx))

/-- A character run yields no hashtags when the character is not the
hash sign. -/
theorem findHashtags_replicate (n : Nat) (c : Char) (hc : c ≠ '#') :
    findHashtags (List.replicate n c) = [] :=
  findHashtagsAux_no_hash _ _ (fun x hx => by
    rw [List.eq_of_mem_replicate hx]; exact hc)

/-- Joining at most five optional parts with the blank-line separator
costs at most the sum of the part lengths plus four separators. -/
theorem pyJoin_five_le (a b c d e : Option Str) :
    (pyJoin nnSep (List.filterMap id [a, b, c, d, e])).length ≤
      optLen a + optLen b + optLen c + optLen d + optLen e + 8 := by
  have hnn : nnSep.length = 2 := by decide
  cases a <;> cases b <;> cases c <;> cases d <;> cases e <;>
    simp [pyJoin, optLen, List.filterMap_cons, List.length_append, hnn] <;> omega

/-- Message used for the first half of the C9 counterexample: a plain
text post whose body length is exactly MAX_POST_LENGTH. -/
def msgA : Message :=
  ⟨true, 1, 1, some (List.replicate 4096 'a'), none, none, false, [], none, none, [],
    none, false, false, false, false, false, none⟩

/-- Message used for the second half of the C9 counterexample: body one
character over MAX_POST_LENGTH. -/
def msgB : Message :=
  ⟨true, 1, 1, some (List.replicate 4097 'a'), none, none, false, [], none, none, [],
    none, false, false, false, false, false, none⟩

/-- Channel info with a 300-character title and a username, for the
second half of the C9 counterexample. -/
def infoB : Info := ⟨some (List.replicate 300 't'), some ['u'], none⟩

/-- Trivial strftime oracle; the counterexample messages carry no date,
so the oracle is never consulted. -/
def noTime : Int → Str := fun _ => []

/-- Body of msgA as a plain list. -/
theorem pyTextOf_msgA : pyTextOf msgA = List.replicate 4096 'a' := rfl

/-- Body of msgB as a plain list. -/
theorem pyTextOf_msgB : pyTextOf msgB = List.replicate 4097 'a' := rfl

/-- Non-empty replicate bodies, stated without simp normalisation of the
large literal. -/
theorem replicate_ne_nil_of_pos (n : Nat) (c : Char) (h : 0 < n) :
    ¬ (List.replicate n c = []) := by
  intro hcontra
  have hlen := congrArg List.length hcontra
  rw [List.length_replicate, List.length_nil] at hlen
  omega

/-- Truncation of a repeated-character body longer than the
MAX_POST_LENGTH - 200 threshold. -/
theorem truncateBody_replicate_gt (n : Nat) (c : Char) (h : 3896 < n) :
    truncateBody (List.replicate n c) = List.replicate 3896 c ++ "...".toList := by
  have hlen : (List.replicate n c).length > MAX_POST_LENGTH - 200 := by
    simp only [List.length_replicate, MAX_POST_LENGTH]
    omega
  unfold truncateBody
  rw [if_pos hlen, List.take_replicate]
  have hmin : min (MAX_POST_LENGTH - 200) n = 3896 := by
    simp only [MAX_POST_LENGTH]
    omega
  rw [hmin]

/-- Join of the caption parts when only the body part is present. -/
theorem pyJoin_body_only (sep B : Str) :
    pyJoin sep (List.filterMap id [none, some B, none, none, none]) = B := rfl

/-- Join of the caption parts when attribution, body and permalink are
present. -/
theorem pyJoin_attr_body_link (sep A B L : Str) :
    pyJoin sep (List.filterMap id [some A, some B, some L, none, none]) =
      A ++ sep ++ (B ++ sep ++ L) := rfl

/-- Counterexample to C9.  First half: the body of msgA has length
exactly MAX_POST_LENGTH, yet rendering truncates it — the caption is the
3896-character prefix plus the ellipsis marker, of length 3899 — because
the cut happens at MAX_POST_LENGTH - 200, not at MAX_POST_LENGTH.
Second half: for msgB (body one character over MAX_POST_LENGTH) with a
300-character attribution title, the combined rendered payload exceeds
MAX_POST_LENGTH, so the claimed combined bound fails as well. -/
theorem C9_counterexample :
    ((pyTextOf msgA).length = MAX_POST_LENGTH ∧
      _format_caption noTime msgA Info.emptyDict =
        List.replicate 3896 'a' ++ "...".toList ∧
      (_format_caption noTime msgA Info.emptyDict).length ≠ (pyTextOf msgA).length) ∧
    ((pyTextOf msgB).length = MAX_POST_LENGTH + 1 ∧
      (_format_caption noTime msgB infoB).length > MAX_POST_LENGTH) := by
  have htagsA : tagPart msgA = none := by
    unfold tagPart _extract_hashtags
    rw [pyTextOf_msgA, findHashtags_replicate 4096 'a' (by decide)]
    rfl
  have hneA : ¬ (pyTextOf msgA = []) := by
    rw [pyTextOf_msgA]
    exact replicate_ne_nil_of_pos 4096 'a' (by omega)
  have hcapA : _format_caption noTime msgA Info.emptyDict =
      List.replicate 3896 'a' ++ "...".toList := by
    unfold _format_caption
    rw [if_neg hneA, pyTextOf_msgA, truncateBody_replicate_gt 4096 'a' (by omega),
      htagsA]
    have hattrA : attrPart Info.emptyDict = none := rfl
    have hlinkA : linkPart msgA Info.emptyDict = none := rfl
    have htimeA : timePart noTime msgA = none := rfl
    rw [hattrA, hlinkA, htimeA, pyJoin_body_only]
  refine ⟨⟨?_, hcapA, ?_⟩, ?_, ?_⟩
  · rw [pyTextOf_msgA, List.length_replicate]
    rfl
  · rw [hcapA, pyTextOf_msgA]
    simp only [List.length_append, List.length_replicate]
    decide
  · rw [pyTextOf_msgB, List.length_replicate]
    rfl
  · have htagsB : tagPart msgB = none := by
      unfold tagPart _extract_hashtags
      rw [pyTextOf_msgB, findHashtags_replicate 4097 'a' (by decide)]
      rfl
    have hneB : ¬ (pyTextOf msgB = []) := by
      rw [pyTextOf_msgB]
      exact replicate_ne_nil_of_pos 4097 'a' (by omega)
    have hattrB : attrPart infoB =
        some ("📢 <b>Из:</b> <a href=".toList ++ [sglQuote] ++
          ("https://t.me/".toList ++ ['u']) ++ [sglQuote] ++ ">".toList ++
          List.replicate 300 't' ++ "</a>".toList) := rfl
    have hlinkB : linkPart msgB infoB =
        some ("🔗 <a href=".toList ++ [sglQuote] ++
          ("https://t.me/".toList ++ ['u'] ++ "/".toList ++ natStr 1) ++ [sglQuote] ++
          ">Оригинал</a>".toList) := rfl
    have htimeB : timePart noTime msgB = none := rfl
    unfold _format_caption
    rw [if_neg hneB, pyTextOf_msgB, truncateBody_replicate_gt 4097 'a' (by omega),
      htagsB, hattrB, hlinkB, htimeB, pyJoin_attr_body_link]
    simp only [List.length_append, List.length_replicate, List.length_cons,
      List.length_nil, MAX_POST_LENGTH]
    omega

/-- Caption body part contributes at most 3899 characters: the
truncation threshold plus the three-dot marker. -/
theorem optLen_body_le (body : Str) :
    optLen (if body = [] then none else some (truncateBody body)) ≤ MAX_POST_LENGTH - 197 := by
  split
  · simp [optLen, MAX_POST_LENGTH]
  · simp only [optLen]
    unfold truncateBody
    split
    · simp only [List.length_append, List.length_take]
      have h3 : ("...".toList).length = 3 := by decide
      simp only [h3, MAX_POST_LENGTH]
      omega
    · simp only [MAX_POST_LENGTH] at *
      omega

/-- C9 as amended: the truncation threshold is MAX_POST_LENGTH - 200
(3896), not MAX_POST_LENGTH; a body at most that long is untouched, a
longer body is cut to 3896 characters plus the three-dot marker (3899
characters in total); the permalink part is computed from the message id
and channel info only, so replacing the body leaves it intact, and so is
the attribution part, a function of the channel info alone; the combined
payload respects MAX_POST_LENGTH exactly when the non-body parts fit the
remaining budget of 189 characters plus separators — the code enforces
no bound beyond that. -/
theorem C9_truncation_amended (strftime : Int → Str) (m : Message) (info : Info) :
    ((pyTextOf m).length ≤ MAX_POST_LENGTH - 200 →
      truncateBody (pyTextOf m) = pyTextOf m) ∧
    (MAX_POST_LENGTH - 200 < (pyTextOf m).length →
      truncateBody (pyTextOf m) =
        (pyTextOf m).take (MAX_POST_LENGTH - 200) ++ "...".toList ∧
      (truncateBody (pyTextOf m)).length = MAX_POST_LENGTH - 197) ∧
    _format_caption strftime m info =
      pyJoin nnSep (List.filterMap id
        [attrPart info,
         if pyTextOf m = [] then none else some (truncateBody (pyTextOf m)),
         linkPart m info, tagPart m, timePart strftime m]) ∧
    (∀ t c, linkPart { m with text := t, caption := c } info = linkPart m info) ∧
    (optLen (attrPart info) + optLen (linkPart m info) + optLen (tagPart m) +
        optLen (timePart strftime m) ≤ 189 →
      (_format_caption strftime m info).length ≤ MAX_POST_LENGTH) := by
  refine ⟨?_, ?_, rfl, fun t c => rfl, ?_⟩
  · intro h
    unfold truncateBody
    rw [if_neg (by simp only [MAX_POST_LENGTH] at *; omega)]
  · intro h
    constructor
    · unfold truncateBody
      rw [if_pos (by simp only [MAX_POST_LENGTH] at *; omega)]
    · unfold truncateBody
      rw [if_pos (by simp only [MAX_POST_LENGTH] at *; omega)]
      simp only [List.length_append, List.length_take]
      have h3 : ("...".toList).length = 3 := by decide
      simp only [h3, MAX_POST_LENGTH] at *
      omega
  · intro h
    have hb := optLen_body_le (pyTextOf m)
    have hj := pyJoin_five_le (attrPart info)
      (if pyTextOf m = [] then none else some (truncateBody (pyTextOf m)))
      (linkPart m info) (tagPart m) (timePart strftime m)
    unfold _format_caption
    simp only [MAX_POST_LENGTH] at *
    omega

/-- Message with no text at all, used by the C9 witness. -/
def msgW : Message :=
  ⟨true, 1, 1, none, none, none, false, [], none, none, [],
    none, false, false, false, false, false, none⟩

/-- Witness for C9 as amended, at a message with empty body and empty
channel info: no truncation and the combined bound hold concretely. -/
theorem C9_truncation_amended_witness :
    truncateBody (pyTextOf msgW) = pyTextOf msgW ∧
    (_format_caption noTime msgW Info.emptyDict).length ≤ MAX_POST_LENGTH :=
  ⟨(C9_truncation_amended noTime msgW Info.emptyDict).1 (by decide),
   (C9_truncation_amended noTime msgW Info.emptyDict).2.2.2.2 (by decide)⟩

/-- Transport response to one send call of PostPublisher.publish_message
(src/publisher.py lines 38-80): a delivered message carrying its new id,
a send that yields no message id (empty send_media_group result or the
unknown-media branch, lines 44 and 69-71), the RetryAfter signal with
its wait, a TelegramError, or any other exception. -/
inductive SendResult
  | sent (message_id : Nat)
  | sentNone
  | retryAfter (retry_after : Nat)
  | telegramError (error_message : Str)
  | unexpectedError (error_message : Str)
deriving Repr, DecidableEq

/-- Metadata dict built on success (src/publisher.py lines 84-90). -/
def publishMetadata (strftime : Int → Str) (m : Message) (info : Info) : PostMetadata :=
  ⟨info.title, info.username, m.date, !(_prepare_media strftime m).isEmpty,
    _get_media_types m⟩

/-- PostPublisher.publish_message (src/publisher.py lines 21-126) as a
function of the database and the stream of transport responses, one
response consumed per send call; it returns the published message id (or
None), the new database, and the number of send calls made.  Each
(re-)entry first re-checks the dedup ledger (line 29) and returns None
with no send on a hit.  The caption and media-group preparation (lines
34-35) are pure; whichever send API the media dispatch picks (lines
38-80), the observable effect is the consumption of the next transport
response, so the model collapses the three dispatch branches.  A truthy
(non-zero) id is recorded via add_published_post, whose return value the
code ignores, and returned (lines 83-101); a falsy id falls through to
return None with no write and no log (line 126); RetryAfter sleeps and
re-enters recursively (lines 103-106); TelegramError and any other
exception log to the errors table and return None (lines 108-126).  An
exhausted response list models a transport that never answers again:
no further observable action. -/
def publish_message (strftime : Int → Str) (m : Message) (target_channel_id : Int)
    (info : Info) : DB → List SendResult → Option Nat × DB × Nat
  | db, rs =>
    if is_post_published db m.chat_id m.id target_channel_id then (none, db, 0)
    else
      match rs with
      | [] => (none, db, 0)
      | r :: rest =>
        match r with
        | .retryAfter _ =>
          let p := publish_message strftime m target_channel_id info db rest
          (p.1, p.2.1, p.2.2 + 1)
        | .telegramError emsg =>
          (none,
           log_error db "publish_error".toList emsg (some target_channel_id) (some m.id), 1)
        | .unexpectedError emsg =>
          (none,
           log_error db "unexpected_error".toList emsg (some target_channel_id) (some m.id), 1)
        | .sent mid =>
          if mid ≠ 0 then
            (some mid,
             (add_published_post db m.chat_id m.id target_channel_id mid
               (some (publishMetadata strftime m info))).2, 1)
          else (none, db, 1)
        | .sentNone => (none, db, 1)

/-- Ledger hit: publish_message returns at line 31 of src/publisher.py,
before any send and with the database untouched. -/
theorem publish_when_published (strftime : Int → Str) (m : Message) (tgt : Int)
    (info : Info) (db : DB) (rs : List SendResult)
    (h : is_post_published db m.chat_id m.id tgt = true) :
    publish_message strftime m tgt info db rs = (none, db, 0) := by
  unfold publish_message
  rw [if_pos h]

/-- Exhausted responses with no ledger hit. -/
theorem publish_nil (strftime : Int → Str) (m : Message) (tgt : Int) (info : Info)
    (db : DB) (h : is_post_published db m.chat_id m.id tgt = false) :
    publish_message strftime m tgt info db [] = (none, db, 0) := by
  unfold publish_message
  rw [if_neg (by simp [h])]

/-- One RetryAfter response: sleep, then re-enter on the remaining
responses; the database is untouched by the rate-limited attempt. -/
theorem publish_step_retry (strftime : Int → Str) (m : Message) (tgt : Int) (info : Info)
    (db : DB) (w : Nat) (rest : List SendResult)
    (h : is_post_published db m.chat_id m.id tgt = false) :
    publish_message strftime m tgt info db (SendResult.retryAfter w :: rest) =
      ((publish_message strftime m tgt info db rest).1,
       (publish_message strftime m tgt info db rest).2.1,
       (publish_message strftime m tgt info db rest).2.2 + 1) := by
  conv_lhs => unfold publish_message
  rw [if_neg (by simp [h])]

/-- One TelegramError response: log and return None. -/
theorem publish_step_tgerr (strftime : Int → Str) (m : Message) (tgt : Int) (info : Info)
    (db : DB) (e : Str) (rest : List SendResult)
    (h : is_post_published db m.chat_id m.id tgt = false) :
    publish_message strftime m tgt info db (SendResult.telegramError e :: rest) =
      (none, log_error db "publish_error".toList e (some tgt) (some m.id), 1) := by
  conv_lhs => unfold publish_message
  rw [if_neg (by simp [h])]

/-- One unexpected-exception response: log and return None. -/
theorem publish_step_unexp (strftime : Int → Str) (m : Message) (tgt : Int) (info : Info)
    (db : DB) (e : Str) (rest : List SendResult)
    (h : is_post_published db m.chat_id m.id tgt = false) :
    publish_message strftime m tgt info db (SendResult.unexpectedError e :: rest) =
      (none, log_error db "unexpected_error".toList e (some tgt) (some m.id), 1) := by
  conv_lhs => unfold publish_message
  rw [if_neg (by simp [h])]

/-- Successful send with a truthy id: record and return the id. -/
theorem publish_step_sent (strftime : Int → Str) (m : Message) (tgt : Int) (info : Info)
    (db : DB) (mid : Nat) (rest : List SendResult)
    (h : is_post_published db m.chat_id m.id tgt = false) (hmid : mid ≠ 0) :
    publish_message strftime m tgt info db (SendResult.sent mid :: rest) =
      (some mid,
       (add_published_post db m.chat_id m.id tgt mid
         (some (publishMetadata strftime m info))).2, 1) := by
  conv_lhs => unfold publish_message
  rw [if_neg (by simp [h])]
  simp only [if_pos hmid]

/-- Successful send with the falsy id zero: nothing recorded, None. -/
theorem publish_step_sent_zero (strftime : Int → Str) (m : Message) (tgt : Int)
    (info : Info) (db : DB) (rest : List SendResult)
    (h : is_post_published db m.chat_id m.id tgt = false) :
    publish_message strftime m tgt info db (SendResult.sent 0 :: rest) = (none, db, 1) := by
  conv_lhs => unfold publish_message
  rw [if_neg (by simp [h])]
  simp

/-- Send that yields no message id: nothing recorded, None. -/
theorem publish_step_sentNone (strftime : Int → Str) (m : Message) (tgt : Int)
    (info : Info) (db : DB) (rest : List SendResult)
    (h : is_post_published db m.chat_id m.id tgt = false) :
    publish_message strftime m tgt info db (SendResult.sentNone :: rest) = (none, db, 1) := by
  conv_lhs => unfold publish_message
  rw [if_neg (by simp [h])]

/-- C2: when the ledger already holds a record for the (source channel,
source message, target) triple, publish_message returns None without
consuming any transport response (zero sends) and with the database —
hence the ledger and its single record for the key — unchanged. -/
theorem C2_skip_duplicate (strftime : Int → Str) (m : Message) (tgt : Int) (info : Info)
    (db : DB) (rs : List SendResult)
    (h : is_post_published db m.chat_id m.id tgt = true) :
    publish_message strftime m tgt info db rs = (none, db, 0) ∧
    countKey (publish_message strftime m tgt info db rs).2.1 m.chat_id m.id tgt =
      countKey db m.chat_id m.id tgt := by
  have he := publish_when_published strftime m tgt info db rs h
  exact ⟨he, by rw [he]⟩

/-- Witness for C2: a ledger holding (1, 1, 3) makes publish_message for
message 1 of channel 1 to target 3 a no-op even with a willing
transport. -/
theorem C2_skip_duplicate_witness :
    publish_message noTime msgW 3 Info.emptyDict
      (add_published_post DB.empty 1 1 3 7 none).2 [SendResult.sent 9] =
      (none, (add_published_post DB.empty 1 1 3 7 none).2, 0) :=
  (C2_skip_duplicate noTime msgW 3 Info.emptyDict
    (add_published_post DB.empty 1 1 3 7 none).2 [SendResult.sent 9] (by decide)).1

/-- Ledger evolution of one publish_message call: the ledger is
unchanged whenever the call returns None, and gains exactly the one new
record exactly when the call returns an id. -/
theorem publish_published_posts (strftime : Int → Str) (m : Message) (tgt : Int)
    (info : Info) (db : DB) :
    ∀ rs : List SendResult,
      ((publish_message strftime m tgt info db rs).1 = none →
        (publish_message strftime m tgt info db rs).2.1.published_posts =
          db.published_posts) ∧
      (∀ mid, (publish_message strftime m tgt info db rs).1 = some mid →
        (publish_message strftime m tgt info db rs).2.1.published_posts =
          db.published_posts ++
            [⟨m.chat_id, m.id, tgt, mid, some (publishMetadata strftime m info)⟩]) := by
  intro rs
  induction rs with
  | nil =>
    by_cases h : is_post_published db m.chat_id m.id tgt = true
    · rw [publish_when_published strftime m tgt info db [] h]
      exact ⟨fun _ => rfl, fun mid hmid => by simp at hmid⟩
    · rw [publish_nil strftime m tgt info db (by simpa using h)]
      exact ⟨fun _ => rfl, fun mid hmid => by simp at hmid⟩
  | cons r rest ih =>
    by_cases h : is_post_published db m.chat_id m.id tgt = true
    · rw [publish_when_published strftime m tgt info db (r :: rest) h]
      exact ⟨fun _ => rfl, fun mid hmid => by simp at hmid⟩
    · have h' : is_post_published db m.chat_id m.id tgt = false := by simpa using h
      cases r with
      | retryAfter w =>
        rw [publish_step_retry strftime m tgt info db w rest h']
        exact ⟨fun hn => ih.1 hn, fun mid hmid => ih.2 mid hmid⟩
      | telegramError e =>
        rw [publish_step_tgerr strftime m tgt info db e rest h']
        exact ⟨fun _ => rfl, fun mid hmid => by simp at hmid⟩
      | unexpectedError e =>
        rw [publish_step_unexp strftime m tgt info db e rest h']
        exact ⟨fun _ => rfl, fun mid hmid => by simp at hmid⟩
      | sentNone =>
        rw [publish_step_sentNone strftime m tgt info db rest h']
        exact ⟨fun _ => rfl, fun mid hmid => by simp at hmid⟩
      | sent mid' =>
        by_cases hz : mid' = 0
        · subst hz
          rw [publish_step_sent_zero strftime m tgt info db rest h']
          exact ⟨fun _ => rfl, fun mid hmid => by simp at hmid⟩
        · rw [publish_step_sent strftime m tgt info db mid' rest h' hz]
          refine ⟨fun hn => by simp at hn, fun mid hmid => ?_⟩
          have hm : mid' = mid := by simpa using hmid
          subst hm
          unfold add_published_post
          rw [if_neg (by simp [h'])]

/-- C3: a ledger record is written only by the success branch, after the
transport send returned a truthy message id — the final ledger is the
initial one when publish_message returns None (rate limits, transport
errors, missing ids, duplicates), and the initial one plus exactly the
one new record when it returns an id. -/
theorem C3_record_after_send (strftime : Int → Str) (m : Message) (tgt : Int)
    (info : Info) (db : DB) (rs : List SendResult) :
    ((publish_message strftime m tgt info db rs).1 = none →
      (publish_message strftime m tgt info db rs).2.1.published_posts =
        db.published_posts) ∧
    (∀ mid, (publish_message strftime m tgt info db rs).1 = some mid →
      (publish_message strftime m tgt info db rs).2.1.published_posts =
        db.published_posts ++
          [⟨m.chat_id, m.id, tgt, mid, some (publishMetadata strftime m info)⟩]) :=
  publish_published_posts strftime m tgt info db rs

/-- Witness for C3: a successful send of message 1 to target 3 appends
exactly its record to the empty ledger. -/
theorem C3_record_after_send_witness :
    (publish_message noTime msgW 3 Info.emptyDict DB.empty
        [SendResult.sent 7]).2.1.published_posts =
      DB.empty.published_posts ++
        [⟨msgW.chat_id, msgW.id, 3, 7, some (publishMetadata noTime msgW Info.emptyDict)⟩] :=
  (C3_record_after_send noTime msgW 3 Info.emptyDict DB.empty [SendResult.sent 7]).2 7
    (by decide)

/-- Rate-limited sends only re-enter: a prefix of n RetryAfter responses
adds n send attempts, changes nothing in the database, and the final
outcome is whatever the remaining responses yield. -/
theorem publish_retry_prefix (strftime : Int → Str) (m : Message) (tgt : Int) (info : Info)
    (db : DB) (w : Nat) (h : is_post_published db m.chat_id m.id tgt = false) :
    ∀ (n : Nat) (rs : List SendResult),
      publish_message strftime m tgt info db
          (List.replicate n (SendResult.retryAfter w) ++ rs) =
        ((publish_message strftime m tgt info db rs).1,
         (publish_message strftime m tgt info db rs).2.1,
         n + (publish_message strftime m tgt info db rs).2.2) := by
  intro n
  induction n with
  | zero =>
    intro rs
    rw [List.replicate_zero, List.nil_append, Nat.zero_add]
  | succ k ih =>
    intro rs
    rw [List.replicate_succ, List.cons_append,
      publish_step_retry strftime m tgt info db w _ h, ih rs]
    dsimp only
    rw [Nat.add_right_comm]

/-- Counterexample to C5: the number of send attempts of publish_message
— and so the number of RetryAfter-triggered retries — is not bounded by
any fixed constant: for every candidate bound B a transport that answers
B + 1 consecutive rate-limit signals forces B + 1 attempts, because the
handler at src/publisher.py line 106 re-enters publish_message
recursively with no retry counter. -/
theorem C5_counterexample_unbounded_retries :
    ¬ ∃ B : Nat, ∀ rs : List SendResult,
        (publish_message noTime msgW 3 Info.emptyDict DB.empty rs).2.2 ≤ B := by
  rintro ⟨B, hB⟩
  have hfalse : is_post_published DB.empty msgW.chat_id msgW.id 3 = false := rfl
  have hstep := publish_retry_prefix noTime msgW 3 Info.emptyDict DB.empty 1 hfalse (B + 1) []
  rw [List.append_nil, publish_nil noTime msgW 3 Info.emptyDict DB.empty hfalse] at hstep
  have hcount := hB (List.replicate (B + 1) (SendResult.retryAfter 1))
  rw [hstep] at hcount
  dsimp at hcount
  omega

/-- C5 as amended: on a rate-limit signal publish_message records no
delivery for that attempt and retries the whole operation after the
indicated wait, one retry per signal with no upper bound — under n
consecutive rate-limit signals it makes n extra send attempts, leaves
the database exactly as the eventual non-rate-limited responses leave
it, and terminates only because (and when) the throttling stops. -/
theorem C5_rate_limited_amended (strftime : Int → Str) (m : Message) (tgt : Int)
    (info : Info) (db : DB) (w n : Nat) (rs : List SendResult)
    (h : is_post_published db m.chat_id m.id tgt = false) :
    publish_message strftime m tgt info db
        (List.replicate n (SendResult.retryAfter w) ++ rs) =
      ((publish_message strftime m tgt info db rs).1,
       (publish_message strftime m tgt info db rs).2.1,
       n + (publish_message strftime m tgt info db rs).2.2) :=
  publish_retry_prefix strftime m tgt info db w h n rs

/-- Witness for C5 as amended: two rate-limit signals before a send that
yields no id give two extra attempts and no database change. -/
theorem C5_rate_limited_amended_witness :
    publish_message noTime msgW 3 Info.emptyDict DB.empty
        (List.replicate 2 (SendResult.retryAfter 30) ++ [SendResult.sentNone]) =
      ((publish_message noTime msgW 3 Info.emptyDict DB.empty [SendResult.sentNone]).1,
       (publish_message noTime msgW 3 Info.emptyDict DB.empty [SendResult.sentNone]).2.1,
       2 + (publish_message noTime msgW 3 Info.emptyDict DB.empty [SendResult.sentNone]).2.2) :=
  C5_rate_limited_amended noTime msgW 3 Info.emptyDict DB.empty 30 2 [SendResult.sentNone] rfl

/-- A returned id always comes from a successful transport send carrying
that id: some mid implies the response sent mid was consumed and mid was
truthy. -/
theorem publish_some_sent (strftime : Int → Str) (m : Message) (tgt : Int) (info : Info)
    (db : DB) : ∀ (rs : List SendResult) (mid : Nat),
      (publish_message strftime m tgt info db rs).1 = some mid →
      SendResult.sent mid ∈ rs ∧ mid ≠ 0 := by
  intro rs
  induction rs with
  | nil =>
    intro mid hmid
    by_cases h : is_post_published db m.chat_id m.id tgt = true
    · rw [publish_when_published strftime m tgt info db [] h] at hmid
      simp at hmid
    · rw [publish_nil strftime m tgt info db (by simpa using h)] at hmid
      simp at hmid
  | cons r rest ih =>
    intro mid hmid
    by_cases h : is_post_published db m.chat_id m.id tgt = true
    · rw [publish_when_published strftime m tgt info db (r :: rest) h] at hmid
      simp at hmid
    · have h' : is_post_published db m.chat_id m.id tgt = false := by simpa using h
      cases r with
      | retryAfter w =>
        rw [publish_step_retry strftime m tgt info db w rest h'] at hmid
        rcases ih mid hmid with ⟨hmem, hz⟩
        exact ⟨List.mem_cons_of_mem _ hmem, hz⟩
      | telegramError e =>
        rw [publish_step_tgerr strftime m tgt info db e rest h'] at hmid
        simp at hmid
      | unexpectedError e =>
        rw [publish_step_unexp strftime m tgt info db e rest h'] at hmid
        simp at hmid
      | sentNone =>
        rw [publish_step_sentNone strftime m tgt info db rest h'] at hmid
        simp at hmid
      | sent mid' =>
        by_cases hz : mid' = 0
        · subst hz
          rw [publish_step_sent_zero strftime m tgt info db rest h'] at hmid
          simp at hmid
        · rw [publish_step_sent strftime m tgt info db mid' rest h' hz] at hmid
          have hm : mid' = mid := by simpa using hmid
          subst hm
          exact ⟨List.mem_cons_self _ _, hz⟩

/-- C10: publish_message returns an id only when a transport send with
that (truthy) id actually happened, and returns None both on a ledger
hit (duplicate skip) and on transport or unexpected errors — the caller
cannot tell the duplicate-skip outcome from the failure outcome by the
return value, which is None in each case. -/
theorem C10_return_value (strftime : Int → Str) (m : Message) (tgt : Int) (info : Info)
    (db : DB) (rs : List SendResult) (e : Str) :
    (∀ mid, (publish_message strftime m tgt info db rs).1 = some mid →
      SendResult.sent mid ∈ rs ∧ mid ≠ 0) ∧
    (is_post_published db m.chat_id m.id tgt = true →
      (publish_message strftime m tgt info db rs).1 = none) ∧
    (publish_message strftime m tgt info db (SendResult.telegramError e :: rs)).1 = none ∧
    (publish_message strftime m tgt info db (SendResult.unexpectedError e :: rs)).1 = none := by
  refine ⟨fun mid hmid => publish_some_sent strftime m tgt info db rs mid hmid, ?_, ?_, ?_⟩
  · intro h
    rw [publish_when_published strftime m tgt info db rs h]
  · by_cases h : is_post_published db m.chat_id m.id tgt = true
    · rw [publish_when_published strftime m tgt info db _ h]
    · rw [publish_step_tgerr strftime m tgt info db e rs (by simpa using h)]
  · by_cases h : is_post_published db m.chat_id m.id tgt = true
    · rw [publish_when_published strftime m tgt info db _ h]
    · rw [publish_step_unexp strftime m tgt info db e rs (by simpa using h)]

/-- Witness for C10: a send behind one rate limit returns id 5, which
indeed appears as a sent response; on a ledger hit the same call shape
returns None. -/
theorem C10_return_value_witness :
    (SendResult.sent 5 ∈ [SendResult.retryAfter 1, SendResult.sent 5] ∧ 5 ≠ 0) ∧
    (publish_message noTime msgW 3 Info.emptyDict
      (add_published_post DB.empty 1 1 3 7 none).2 [SendResult.sent 9]).1 = none :=
  ⟨(C10_return_value noTime msgW 3 Info.emptyDict DB.empty
      [SendResult.retryAfter 1, SendResult.sent 5] []).1 5 (by decide),
   (C10_return_value noTime msgW 3 Info.emptyDict
      (add_published_post DB.empty 1 1 3 7 none).2 [SendResult.sent 9] []).2.1 (by decide)⟩

/-- Publishing to one target never changes the ledger answer for keys of
a different target: the only possible new row carries the published-to
target id. -/
theorem publish_preserves_other_keys (strftime : Int → Str) (m : Message) (tgtTo : Int)
    (info : Info) (db : DB) (rs : List SendResult) (s : Int) (mid : Nat) (tgt : Int)
    (hne : tgt ≠ tgtTo) :
    is_post_published (publish_message strftime m tgtTo info db rs).2.1 s mid tgt =
      is_post_published db s mid tgt := by
  unfold is_post_published
  rcases hres : (publish_message strftime m tgtTo info db rs).1 with _ | pmid
  · rw [(publish_published_posts strftime m tgtTo info db rs).1 hres]
  · rw [(publish_published_posts strftime m tgtTo info db rs).2 pmid hres, List.any_append]
    have hone :
        List.any [(⟨m.chat_id, m.id, tgtTo, pmid,
          some (publishMetadata strftime m info)⟩ : PubRecord)]
          (keyMatches s mid tgt) = false := by
      simp [keyMatches, Ne.symm hne]
    rw [hone, Bool.or_false]

/-- The outcome and attempt count of publish_message depend on the
database only through the ledger answer for its own composite key. -/
theorem publish_result_congr (strftime : Int → Str) (m : Message) (tgt : Int)
    (info : Info) : ∀ (rs : List SendResult) (db1 db2 : DB),
    is_post_published db1 m.chat_id m.id tgt = is_post_published db2 m.chat_id m.id tgt →
    (publish_message strftime m tgt info db1 rs).1 =
      (publish_message strftime m tgt info db2 rs).1 := by
  intro rs
  induction rs with
  | nil =>
    intro db1 db2 hkey
    by_cases h : is_post_published db1 m.chat_id m.id tgt = true
    · rw [publish_when_published strftime m tgt info db1 [] h,
        publish_when_published strftime m tgt info db2 [] (hkey.symm.trans h)]
    · have h1 : is_post_published db1 m.chat_id m.id tgt = false := by simpa using h
      rw [publish_nil strftime m tgt info db1 h1,
        publish_nil strftime m tgt info db2 (hkey.symm.trans h1)]
  | cons r rest ih =>
    intro db1 db2 hkey
    by_cases h : is_post_published db1 m.chat_id m.id tgt = true
    · rw [publish_when_published strftime m tgt info db1 _ h,
        publish_when_published strftime m tgt info db2 _ (hkey.symm.trans h)]
    · have h1 : is_post_published db1 m.chat_id m.id tgt = false := by simpa using h
      have h2 : is_post_published db2 m.chat_id m.id tgt = false := hkey.symm.trans h1
      cases r with
      | retryAfter w =>
        rw [publish_step_retry strftime m tgt info db1 w rest h1,
          publish_step_retry strftime m tgt info db2 w rest h2]
        exact ih db1 db2 hkey
      | telegramError e =>
        rw [publish_step_tgerr strftime m tgt info db1 e rest h1,
          publish_step_tgerr strftime m tgt info db2 e rest h2]
      | unexpectedError e =>
        rw [publish_step_unexp strftime m tgt info db1 e rest h1,
          publish_step_unexp strftime m tgt info db2 e rest h2]
      | sentNone =>
        rw [publish_step_sentNone strftime m tgt info db1 rest h1,
          publish_step_sentNone strftime m tgt info db2 rest h2]
      | sent mid' =>
        by_cases hz : mid' = 0
        · subst hz
          rw [publish_step_sent_zero strftime m tgt info db1 rest h1,
            publish_step_sent_zero strftime m tgt info db2 rest h2]
        · rw [publish_step_sent strftime m tgt info db1 mid' rest h1 hz,
            publish_step_sent strftime m tgt info db2 mid' rest h2 hz]

/-- Fan-out loop of ChannelMonitor._process_message (src/monitor.py
lines 102-111): publish to each target in order, threading the database;
per target the pair (channel id, returned id) is collected (the code
only logs the id).  The transport behaviour is a response list per
target channel id. -/
def fanoutTargets (strftime : Int → Str) (m : Message) (info : Info) :
    DB → List TargetChannel → (Int → List SendResult) → DB × List (Int × Option Nat)
  | db, [], _ => (db, [])
  | db, t :: rest, beh =>
    ((fanoutTargets strftime m info
        (publish_message strftime m t.channel_id info db (beh t.channel_id)).2.1
        rest beh).1,
     (t.channel_id,
       (publish_message strftime m t.channel_id info db (beh t.channel_id)).1) ::
       (fanoutTargets strftime m info
         (publish_message strftime m t.channel_id info db (beh t.channel_id)).2.1
         rest beh).2)

/-- Every listed target is attempted, in order, whatever each publish
attempt does. -/
theorem fanout_attempts (strftime : Int → Str) (m : Message) (info : Info)
    (beh : Int → List SendResult) : ∀ (targets : List TargetChannel) (db : DB),
    (fanoutTargets strftime m info db targets beh).2.map Prod.fst =
      targets.map TargetChannel.channel_id := by
  intro targets
  induction targets with
  | nil => intro db; rfl
  | cons t rest ih =>
    intro db
    unfold fanoutTargets
    dsimp only
    rw [List.map_cons, List.map_cons, ih]

/-- With pairwise distinct target ids, each target records the very
outcome it would get against the initial database: earlier targets
cannot influence it. -/
theorem fanout_isolated (strftime : Int → Str) (m : Message) (info : Info)
    (beh : Int → List SendResult) : ∀ (targets : List TargetChannel) (db : DB),
    targets.Pairwise (fun a b => a.channel_id ≠ b.channel_id) →
    (fanoutTargets strftime m info db targets beh).2 =
      targets.map (fun t =>
        (t.channel_id,
         (publish_message strftime m t.channel_id info db (beh t.channel_id)).1)) := by
  intro targets
  induction targets with
  | nil => intro db _; rfl
  | cons t rest ih =>
    intro db hpw
    rcases List.pairwise_cons.mp hpw with ⟨hhead, htail⟩
    unfold fanoutTargets
    dsimp only
    rw [List.map_cons]
    refine congrArg _ ?_
    rw [ih _ htail]
    refine List.map_congr_left ?_
    intro t' ht'
    have hne : t.channel_id ≠ t'.channel_id := hhead t' ht'
    have hkey := publish_preserves_other_keys strftime m t.channel_id info db
      (beh t.channel_id) m.chat_id m.id t'.channel_id (Ne.symm hne)
    rw [publish_result_congr strftime m t'.channel_id info (beh t'.channel_id) _ db hkey]

/-- C4: the fan-out loop attempts delivery to every active target in
order for every transport behaviour — a failing target never aborts the
loop — and, when target ids are pairwise distinct (the target_channels
table enforces UNIQUE channel ids), the outcome recorded for each target
is exactly the outcome of its own publish attempt against the initial
database, so a failure in one target never changes what another target
receives. -/
theorem C4_fanout_isolation (strftime : Int → Str) (m : Message) (info : Info) (db : DB)
    (targets : List TargetChannel) (beh : Int → List SendResult) :
    ((fanoutTargets strftime m info db targets beh).2.map Prod.fst =
      targets.map TargetChannel.channel_id) ∧
    (targets.Pairwise (fun a b => a.channel_id ≠ b.channel_id) →
      (fanoutTargets strftime m info db targets beh).2 =
        targets.map (fun t =>
          (t.channel_id,
           (publish_message strftime m t.channel_id info db (beh t.channel_id)).1))) :=
  ⟨fanout_attempts strftime m info beh targets db,
   fun hpw => fanout_isolated strftime m info beh targets db hpw⟩

/-- Two distinct active targets for the C4 witness. -/
def targetsW : List TargetChannel :=
  [⟨3, none, none, none, true⟩, ⟨4, none, none, none, true⟩]

/-- Transport behaviour for the C4 witness: target 3 always fails with a
transport error, target 4 delivers id 5. -/
def behW : Int → List SendResult := fun t =>
  if t == 3 then [SendResult.telegramError "boom".toList] else [SendResult.sent 5]

/-- Witness for C4: with target 3 failing, target 4 is still attempted
and succeeds with id 5. -/
theorem C4_fanout_isolation_witness :
    (fanoutTargets noTime msgW Info.emptyDict DB.empty targetsW behW).2 =
      targetsW.map (fun t =>
        (t.channel_id,
         (publish_message noTime msgW t.channel_id Info.emptyDict DB.empty
           (behW t.channel_id)).1)) :=
  (C4_fanout_isolation noTime msgW Info.emptyDict DB.empty targetsW behW).2 (by decide)

/-- Stage at which ChannelMonitor._process_message (src/monitor.py lines
73-127) returns, with the per-target outcomes when fan-out is reached. -/
inductive ProcessOutcome
  | not_channel
  | stale
  | filtered
  | media_rejected
  | no_targets
  | processed (results : List (Int × Option Nat))
deriving Repr, DecidableEq

/-- Staleness guard of src/monitor.py line 81: drop when a date is
present and the day component of (now - date) exceeds 1; the day
component of a timedelta is the floor of the span in days, modelled on
whole seconds with flooring division. -/
def staleDrop (now : Int) (date : Option Int) : Bool :=
  match date with
  | none => false
  | some d => decide (1 < (now - d).fdiv 86400)

/-- Allowed media kinds hardcoded at src/monitor.py line 91. -/
def allowedMediaTypes : List MediaType := [MediaType.photo, MediaType.video]

/-- ChannelMonitor._process_message (src/monitor.py lines 73-127): chat
type check, staleness guard, filter chain over the active rules loaded
from the database, media-type check, active-target lookup, fan-out, and
finally the high-water-mark update of the source channel. -/
def _process_message (strftime : Int → Str) (eng : RegexEngine) (now : Int) (db : DB)
    (m : Message) (channel_info : SourceChannel) (beh : Int → List SendResult) :
    ProcessOutcome × DB :=
  if !m.chat_is_channel then (.not_channel, db)
  else if staleDrop now m.date then (.stale, db)
  else if !check_message eng (pyTextOf m) (get_filters db true) then (.filtered, db)
  else if !check_media_type m allowedMediaTypes then (.media_rejected, db)
  else
    match get_target_channels db true with
    | [] => (.no_targets, db)
    | t :: ts =>
      (.processed (fanoutTargets strftime m channel_info.toInfo db (t :: ts) beh).2,
       update_last_scanned_id
         (fanoutTargets strftime m channel_info.toInfo db (t :: ts) beh).1
         channel_info.channel_id m.id)

/-- Message for the C8 failing input: a text post in a channel whose
date lies 36 hours before now. -/
def msg8 : Message :=
  ⟨true, 1, 2, some ['x'], none, some 0, false, [], none, none, [],
    none, false, false, false, false, false, none⟩

/-- Source channel row for the C8 failing input. -/
def ch8 : SourceChannel := ⟨1, none, none, none, 0, true⟩

/-- Failing input for C8: an event 36 hours old — older than the 1-day
threshold — is NOT dropped: the staleness guard compares the whole-day
component with 1 (src/monitor.py line 81), so it only drops events at
least 2 full days old, contradicting both the claim and the comment on
line 80 of src/monitor.py (events older than 24 hours should not be
processed).  The event reaches filter evaluation and proceeds to the
media check; the real cut-off sits at exactly 2 days, as the last two
conjuncts show. -/
theorem C8_staleness_off_by_one :
    ((129600 : Int) - 0 > 86400) ∧
    staleDrop 129600 (some 0) = false ∧
    (_process_message noTime ⟨fun _ => true, fun _ _ _ => true⟩ 129600 DB.empty msg8 ch8
      (fun _ => [])).1 = ProcessOutcome.media_rejected ∧
    staleDrop 172799 (some 0) = false ∧
    staleDrop 172800 (some 0) = true := by
  refine ⟨by norm_num, by decide, by decide, by decide, by decide⟩
